import Mathlib

/-!
# Verification of the fastobo identifier / property-value core

The repository surface under `src/` is the Python binding's test-suite and
packaging files; the core that the spec describes (identifier model,
property-value model, mutation guard) is the Rust extension, whose sources are
not part of the visible tree.  Following the spec (`spec.md`), the core is
modelled here as executable Lean definitions: identifiers as a closed sum type,
parsing/rendering over `List Char`, and the dynamically-typed Python call
surface as a `PyVal` sum with `Except PyErr` results.

Every definition whose doc comment starts with `Modelled from the spec:` stands
in for code of the repository that is not under `src/`.
-/

namespace Fastobo

/-- Modelled from the spec: missing Rust core, §3 Identifier.  Closed tagged
variant over {Unprefixed, Prefixed, Url} identifiers.  Attribute names follow
§3: `UnprefixedIdent.value`, `PrefixedIdent.prefix`/`local`, `Url.value`. -/
inductive Identifier where
  | unprefixed (value : String)
  | prefixed (pfx : String) (loc : String)
  | url (value : String)
deriving DecidableEq, Repr

/-- Modelled from the spec: characters reserved for OBO clause syntax in a bare
identifier token (§3: "unescaped whitespace/`:`", §4.1: "unescaped control
characters, raw newlines"; the quote and backslash are reserved by the
property-value clause grammar of §4.2). -/
def isReservedChar (c : Char) : Bool :=
  c == ':' || c == '"' || c == '\\' || c.isWhitespace || decide (c.val < 32)

/-- Modelled from the spec: a legal bare identifier token — non-empty and free
of reserved characters (§3 UnprefixedIdent / PrefixedIdent part constraints). -/
def validToken (l : List Char) : Bool :=
  !l.isEmpty && l.all (fun c => !isReservedChar c)

/-- Split a character list at the first occurrence of `t`: returns the
(`t`-free) part before and the part after, or `none` when `t` is absent. -/
def splitFirst (t : Char) : List Char → Option (List Char × List Char)
  | [] => none
  | c :: r =>
    if c = t then some ([], r)
    else (splitFirst t r).map (fun p => (c :: p.1, p.2))

/-- Characters allowed in a URI scheme. -/
def isSchemeChar (c : Char) : Bool :=
  c.isAlpha || c.isDigit || c == '+' || c == '-' || c == '.'

/-- Characters allowed after the scheme of a URI token: printable and not a
quote (the token ends at whitespace in clause context). -/
def isUriChar (c : Char) : Bool :=
  !c.isWhitespace && c != '"' && !(decide (c.val < 32))

/-- Modelled from the spec: missing Rust core, §4.1/§6 absolute-URI detection.
A token is URL-shaped when a non-empty scheme is followed by `://` and a
non-empty remainder of URI characters.  The spec's examples force this shape:
`http://purl.obolibrary.org/obo/GO_0070412` must be detected as a URL while
`GO:0070412` must not be (§8 variant discrimination), so a bare
`scheme:path` without the authority marker `//` is not treated as a URL. -/
def isAbsoluteUriL (l : List Char) : Bool :=
  match splitFirst ':' l with
  | none => false
  | some (sch, rest) =>
    !sch.isEmpty && sch.all isSchemeChar &&
    (match rest with
     | '/' :: '/' :: r => !r.isEmpty && r.all isUriChar
     | _ => false)

/-- Modelled from the spec: §3 validity of each identifier variant.
An unprefixed identifier is a legal bare token; both parts of a prefixed
identifier are legal bare tokens and (because §4.1 gives URL detection
priority) its canonical form must not itself be URL-shaped; a URL identifier
is an absolute-URI token. -/
def Identifier.valid : Identifier → Bool
  | .unprefixed v => validToken v.data
  | .prefixed p l =>
      validToken p.data && validToken l.data &&
      !(isAbsoluteUriL (p.data ++ ':' :: l.data))
  | .url v => isAbsoluteUriL v.data

/-- Modelled from the spec: §3/§4.1 canonical rendering, at character-list
level: an unprefixed identifier renders as its token, a prefixed identifier as
`prefix:local`, a URL as its URI text. -/
def Identifier.renderL : Identifier → List Char
  | .unprefixed v => v.data
  | .prefixed p l => p.data ++ ':' :: l.data
  | .url v => v.data

/-- Modelled from the spec: `render() -> string` (§4.1). -/
def Identifier.render (i : Identifier) : String := ⟨i.renderL⟩

/-- Modelled from the spec: §4.1 `parse(text) -> Identifier` at character-list
level.  Classification by syntactic shape, URL detection first; then a text
with exactly one unescaped colon splitting it into two non-empty legal halves
is a prefixed identifier; otherwise the text must be a legal bare token
(unprefixed identifier).  `none` models the `SyntaxError` failure. -/
def parseIdentL (l : List Char) : Option Identifier :=
  if isAbsoluteUriL l then some (.url ⟨l⟩)
  else
    match splitFirst ':' l with
    | some (a, b) =>
        if validToken a && validToken b then some (.prefixed ⟨a⟩ ⟨b⟩) else none
    | none => if validToken l then some (.unprefixed ⟨l⟩) else none

/-- Modelled from the spec: §4.1 `parse(text) -> Identifier`. -/
def parseIdent (s : String) : Option Identifier := parseIdentL s.data

end Fastobo

namespace Fastobo

/-! ## Basic lemmas about `splitFirst` and URI detection -/

theorem splitFirst_eq_none_of_not_mem (t : Char) :
    ∀ l : List Char, t ∉ l → splitFirst t l = none := by
  intro l
  induction l with
  | nil => intro _; rfl
  | cons c r ih =>
      intro h
      have hc : ¬(c = t) := fun hct => h (hct ▸ List.mem_cons_self c r)
      have hr : t ∉ r := fun hm => h (List.mem_cons_of_mem c hm)
      simp [splitFirst, hc, ih hr]

theorem splitFirst_append (t : Char) :
    ∀ (a b : List Char), t ∉ a → splitFirst t (a ++ t :: b) = some (a, b) := by
  intro a
  induction a with
  | nil => intro b _; simp [splitFirst]
  | cons c r ih =>
      intro b h
      have hc : ¬(c = t) := fun hct => h (hct ▸ List.mem_cons_self c r)
      have hr : t ∉ r := fun hm => h (List.mem_cons_of_mem c hm)
      simp [splitFirst, hc, ih b hr]

theorem not_mem_of_validToken {c : Char} {l : List Char}
    (hv : validToken l = true) (hc : isReservedChar c = true) : c ∉ l := by
  intro hm
  have hall := (Bool.and_eq_true _ _ |>.mp hv).2
  have := List.all_eq_true.mp hall c hm
  simp [hc] at this

theorem colon_not_mem_of_validToken {l : List Char}
    (hv : validToken l = true) : ':' ∉ l :=
  not_mem_of_validToken hv (by decide)

/-- A colon-free text is never URL-shaped. -/
theorem not_uri_of_no_colon {l : List Char} (h : ':' ∉ l) :
    isAbsoluteUriL l = false := by
  simp [isAbsoluteUriL, splitFirst_eq_none_of_not_mem ':' l h]

/-! ## Round-trip at list level -/

/-- Core round-trip: parsing the canonical character rendering of a valid
identifier recovers it. -/
theorem parseIdentL_renderL {i : Identifier} (hv : i.valid = true) :
    parseIdentL i.renderL = some i := by
  cases i with
  | unprefixed v =>
      have hv' : validToken v.data = true := hv
      have hnc : ':' ∉ v.data := colon_not_mem_of_validToken hv'
      simp [Identifier.renderL, parseIdentL, not_uri_of_no_colon hnc,
        splitFirst_eq_none_of_not_mem ':' v.data hnc, hv']
  | prefixed p l =>
      simp only [Identifier.valid, Bool.and_eq_true, Bool.not_eq_true'] at hv
      obtain ⟨⟨hp, hl⟩, hnu⟩ := hv
      have hnc : ':' ∉ p.data := colon_not_mem_of_validToken hp
      simp [Identifier.renderL, parseIdentL, hnu,
        splitFirst_append ':' p.data l.data hnc, hp, hl]
  | url v =>
      have hv' : isAbsoluteUriL v.data = true := hv
      simp [Identifier.renderL, parseIdentL, hv']

/-- **C1.** For every valid identifier `i` (unprefixed, prefixed, or URL),
parsing the canonical rendering of `i` yields an identifier equal to `i`:
`parse (render i) = some i`. -/
theorem C1_identifier_roundtrip (i : Identifier) (hv : i.valid = true) :
    parseIdent i.render = some i := by
  have : (Identifier.render i).data = i.renderL := rfl
  rw [parseIdent, this]
  exact parseIdentL_renderL hv

/-- **C1 witness.** The round trip at the three concrete valid identifiers of
the spec's examples, one per variant. -/
theorem C1_identifier_roundtrip_witness :
    ((Identifier.unprefixed "created_by").valid = true ∧
      parseIdent (Identifier.unprefixed "created_by").render =
        some (.unprefixed "created_by")) ∧
    ((Identifier.prefixed "GO" "0070412").valid = true ∧
      parseIdent (Identifier.prefixed "GO" "0070412").render =
        some (.prefixed "GO" "0070412")) ∧
    ((Identifier.url "http://purl.obolibrary.org/obo/GO_0070412").valid = true ∧
      parseIdent (Identifier.url "http://purl.obolibrary.org/obo/GO_0070412").render =
        some (.url "http://purl.obolibrary.org/obo/GO_0070412")) :=
  ⟨⟨by decide, C1_identifier_roundtrip _ (by decide)⟩,
   ⟨by decide, C1_identifier_roundtrip _ (by decide)⟩,
   ⟨by decide, C1_identifier_roundtrip _ (by decide)⟩⟩

/-! ## Property-value model -/

/-- Modelled from the spec: missing Rust core, §3 PropertyValue.  Two variants,
both owning a `relation : Identifier`; a typed property value carries a string
literal and a datatype identifier, an identified property value carries a
cross-reference identifier. -/
inductive PropertyValue where
  | typed (relation : Identifier) (value : String) (datatype : Identifier)
  | identified (relation : Identifier) (value : Identifier)
deriving DecidableEq, Repr

/-- Modelled from the spec: §4.2 rendering escapes `"` and `\` inside the
literal of a typed property value. -/
def escapeQ : List Char → List Char
  | [] => []
  | c :: r => if c = '"' || c = '\\' then '\\' :: c :: escapeQ r else c :: escapeQ r

/-- Modelled from the spec: §4.2 quoted-string scanning — consume characters up
to the closing unescaped `"`, honouring backslash escapes for `"` and `\`;
returns the unescaped literal and the remainder after the closing quote.
`none` models the `SyntaxError` on an unterminated or ill-escaped string. -/
def parseQuoted : List Char → Option (List Char × List Char)
  | [] => none
  | c :: r =>
    if c = '"' then some ([], r)
    else if c = '\\' then
      match r with
      | [] => none
      | c2 :: r2 =>
        if c2 = '"' ∨ c2 = '\\' then
          (parseQuoted r2).map (fun p => (c2 :: p.1, p.2))
        else none
    else (parseQuoted r).map (fun p => (c :: p.1, p.2))

/-- Modelled from the spec: §3/§4.2 canonical rendering at character-list
level: `<relation> "<escaped-value>" <datatype>` for the typed variant and
`<relation> <value>` for the identified variant. -/
def PropertyValue.renderL : PropertyValue → List Char
  | .typed r v d =>
      r.renderL ++ ' ' :: '"' :: (escapeQ v.data ++ '"' :: ' ' :: d.renderL)
  | .identified r v => r.renderL ++ ' ' :: v.renderL

/-- Modelled from the spec: `render() -> string` (§4.2). -/
def PropertyValue.render (p : PropertyValue) : String := ⟨p.renderL⟩

/-- Modelled from the spec: §4.2 `parse(clause_text) -> PropertyValue` at
character-list level.  A leading identifier token (the relation) up to the
first space; then, if the remainder opens with a double quote, a quoted
literal followed by a space and a datatype identifier (typed variant);
otherwise the remainder is a value identifier (identified variant).  `none`
models the `SyntaxError` failures (malformed quoting, trailing garbage). -/
def parsePVL (l : List Char) : Option PropertyValue :=
  match splitFirst ' ' l with
  | none => none
  | some (relTok, rest) =>
    match parseIdentL relTok with
    | none => none
    | some rel =>
      match rest with
      | '"' :: r =>
        match parseQuoted r with
        | some (val, ' ' :: dtTok) =>
            (parseIdentL dtTok).map (fun dt => .typed rel ⟨val⟩ dt)
        | _ => none
      | _ => (parseIdentL rest).map (fun v => .identified rel v)

/-- Modelled from the spec: §4.2 `parse(clause_text) -> PropertyValue`. -/
def parsePV (s : String) : Option PropertyValue := parsePVL s.data

/-- Modelled from the spec: §3 property-value invariants — the embedded
identifiers are valid identifiers (the literal of a typed value is an
arbitrary string, protected by quoting). -/
def PropertyValue.valid : PropertyValue → Bool
  | .typed r _ d => r.valid && d.valid
  | .identified r v => r.valid && v.valid

/-! ## Clause-level round trip -/

/-- A character that cannot occur in a valid identifier's canonical rendering:
the clause separator space and the literal delimiter quote. -/
def cleanChar (c : Char) : Bool := !(c == ' ') && !(c == '"')

theorem cleanChar_of_not_reserved {c : Char} (h : isReservedChar c = false) :
    cleanChar c = true := by
  by_cases h1 : c = ' '
  · subst h1; simp [isReservedChar] at h
  · by_cases h2 : c = '"'
    · subst h2; simp [isReservedChar] at h
    · simp [cleanChar, h1, h2]

theorem cleanChar_of_scheme {c : Char} (h : isSchemeChar c = true) :
    cleanChar c = true := by
  by_cases h1 : c = ' '
  · subst h1; simp [isSchemeChar] at h
  · by_cases h2 : c = '"'
    · subst h2; simp [isSchemeChar] at h
    · simp [cleanChar, h1, h2]

theorem cleanChar_of_uriChar {c : Char} (h : isUriChar c = true) :
    cleanChar c = true := by
  by_cases h1 : c = ' '
  · subst h1; simp [isUriChar] at h
  · by_cases h2 : c = '"'
    · subst h2; simp [isUriChar] at h
    · simp [cleanChar, h1, h2]

theorem validToken_clean {l : List Char} (h : validToken l = true) :
    l.all cleanChar = true := by
  have hall := (Bool.and_eq_true _ _ |>.mp h).2
  refine List.all_eq_true.mpr fun c hc => ?_
  have := List.all_eq_true.mp hall c hc
  exact cleanChar_of_not_reserved (by simpa using this)

theorem splitFirst_structure (t : Char) :
    ∀ l a b, splitFirst t l = some (a, b) → l = a ++ t :: b := by
  intro l
  induction l with
  | nil => intro a b h; simp [splitFirst] at h
  | cons c r ih =>
      intro a b h
      by_cases hc : c = t
      · subst hc
        simp only [splitFirst, if_pos rfl] at h
        cases h
        rfl
      · simp only [splitFirst, if_neg hc, Option.map_eq_some'] at h
        obtain ⟨p, hp, heq⟩ := h
        cases heq
        have hr : r = p.1 ++ t :: p.2 := ih p.1 p.2 hp
        rw [List.cons_append, ← hr]

/-- The canonical rendering of a valid identifier contains neither a space nor
a double quote. -/
theorem renderL_clean {i : Identifier} (hv : i.valid = true) :
    i.renderL.all cleanChar = true := by
  cases i with
  | unprefixed v => exact validToken_clean hv
  | prefixed p l =>
      simp only [Identifier.valid, Bool.and_eq_true] at hv
      obtain ⟨⟨hp, hl⟩, _⟩ := hv
      have hp' := List.all_eq_true.mp (validToken_clean hp)
      have hl' := List.all_eq_true.mp (validToken_clean hl)
      refine List.all_eq_true.mpr fun c hc => ?_
      simp only [Identifier.renderL, List.mem_append, List.mem_cons] at hc
      rcases hc with h | h | h
      · exact hp' c h
      · subst h; decide
      · exact hl' c h
  | url v =>
      have hv' : isAbsoluteUriL v.data = true := hv
      unfold isAbsoluteUriL at hv'
      rcases hs : splitFirst ':' v.data with _ | ⟨sch, rest⟩
      · rw [hs] at hv'; simp at hv'
      · rw [hs] at hv'
        simp only [Bool.and_eq_true] at hv'
        obtain ⟨⟨_, hsch⟩, hrest⟩ := hv'
        have hdecomp := splitFirst_structure ':' v.data sch rest hs
        rcases hr : rest with _ | ⟨c1, rest1⟩ <;> rw [hr] at hrest
        · simp at hrest
        · rcases hr1 : rest1 with _ | ⟨c2, r⟩ <;> rw [hr1] at hrest
          · by_cases h1 : c1 = '/' <;> simp [h1] at hrest
          · by_cases h1 : c1 = '/'
            · by_cases h2 : c2 = '/'
              · subst h1; subst h2
                simp only [Bool.and_eq_true] at hrest
                obtain ⟨_, hall⟩ := hrest
                have hsch' := List.all_eq_true.mp hsch
                have hall' := List.all_eq_true.mp hall
                refine List.all_eq_true.mpr fun c hc => ?_
                rw [show (Identifier.url v).renderL = v.data from rfl,
                  hdecomp, hr, hr1] at hc
                simp only [List.mem_append, List.mem_cons] at hc
                rcases hc with h | h | h | h | h
                · exact cleanChar_of_scheme (hsch' c h)
                · subst h; decide
                · subst h; decide
                · subst h; decide
                · exact cleanChar_of_uriChar (hall' c h)
              · simp [h1, h2] at hrest
            · simp [h1] at hrest

theorem not_mem_of_clean {l : List Char} (h : l.all cleanChar = true) :
    ' ' ∉ l ∧ '"' ∉ l := by
  constructor <;> intro hm <;>
    · have := List.all_eq_true.mp h _ hm
      simp [cleanChar] at this

/-- Scanning the escaped literal followed by the closing quote recovers the
literal and the remainder. -/
theorem parseQuoted_escapeQ :
    ∀ (v rem : List Char), parseQuoted (escapeQ v ++ '"' :: rem) = some (v, rem) := by
  intro v
  induction v with
  | nil =>
      intro rem
      show parseQuoted ('"' :: rem) = some ([], rem)
      rw [parseQuoted.eq_def]
      simp
  | cons c cs ih =>
      intro rem
      by_cases h1 : c = '"'
      · subst h1
        simp only [escapeQ, List.cons_append]
        rw [parseQuoted.eq_def]
        simp [ih rem]
      · by_cases h2 : c = '\\'
        · subst h2
          simp only [escapeQ, List.cons_append]
          rw [parseQuoted.eq_def]
          simp [ih rem]
        · have hesc : (c = '"' || c = '\\') = false := by simp [h1, h2]
          simp only [escapeQ, hesc, Bool.false_eq_true, if_false, List.cons_append]
          rw [parseQuoted.eq_def]
          simp [h1, h2, ih rem]

/-- Core clause round-trip at list level. -/
theorem parsePVL_renderL {p : PropertyValue} (hv : p.valid = true) :
    parsePVL p.renderL = some p := by
  cases p with
  | typed r v d =>
      simp only [PropertyValue.valid, Bool.and_eq_true] at hv
      obtain ⟨hr, hd⟩ := hv
      have hsp := (not_mem_of_clean (renderL_clean hr)).1
      simp [PropertyValue.renderL, parsePVL,
        splitFirst_append ' ' r.renderL _ hsp, parseIdentL_renderL hr,
        parseQuoted_escapeQ v.data (' ' :: d.renderL), parseIdentL_renderL hd]
  | identified r v =>
      simp only [PropertyValue.valid, Bool.and_eq_true] at hv
      obtain ⟨hr, hvv⟩ := hv
      have hsp := (not_mem_of_clean (renderL_clean hr)).1
      have hq := (not_mem_of_clean (renderL_clean hvv)).2
      simp only [PropertyValue.renderL, parsePVL,
        splitFirst_append ' ' r.renderL _ hsp, parseIdentL_renderL hr]
      split
      · next r' heq => exact absurd (heq ▸ List.mem_cons_self '"' r') hq
      · next => simp [parseIdentL_renderL hvv]

/-- **C2.** For every valid property value `p`, parsing the canonical
rendering of `p` yields a property value equal to `p`. -/
theorem C2_pv_roundtrip (p : PropertyValue) (hv : p.valid = true) :
    parsePV p.render = some p := by
  have : (PropertyValue.render p).data = p.renderL := rfl
  rw [parsePV, this]
  exact parsePVL_renderL hv

/-- **C2 witness.** The round trip at the spec's two concrete property values:
the typed `creation_date` annotation and the identified `derived_from`
cross-reference. -/
theorem C2_pv_roundtrip_witness :
    ((PropertyValue.typed (.unprefixed "creation_date") "2019-04-08T23:21:05Z"
        (.prefixed "xsd" "date")).valid = true ∧
      parsePV (PropertyValue.typed (.unprefixed "creation_date")
          "2019-04-08T23:21:05Z" (.prefixed "xsd" "date")).render =
        some (.typed (.unprefixed "creation_date") "2019-04-08T23:21:05Z"
          (.prefixed "xsd" "date"))) ∧
    ((PropertyValue.identified (.unprefixed "derived_from")
        (.prefixed "MS" "1000031")).valid = true ∧
      parsePV (PropertyValue.identified (.unprefixed "derived_from")
          (.prefixed "MS" "1000031")).render =
        some (.identified (.unprefixed "derived_from")
          (.prefixed "MS" "1000031"))) :=
  ⟨⟨by decide, C2_pv_roundtrip _ (by decide)⟩,
   ⟨by decide, C2_pv_roundtrip _ (by decide)⟩⟩

/-! ## Classification of identifier parsing (C4) -/

/-- **C4.** `Identifier.parse` classifies its input with URL detection taking
priority: URL-shaped input produces a `Url`; otherwise input with exactly one
unescaped colon splitting it into two non-empty legal halves produces a
`PrefixedIdent`; otherwise a legal bare token produces an `UnprefixedIdent`.
In particular `parse "http://purl.obolibrary.org/obo/GO_0070412"` yields the
`Url`, `parse "GO:0070412"` yields `PrefixedIdent "GO" "0070412"`, and
`parse "created_by"` yields `UnprefixedIdent "created_by"`. -/
theorem C4_parse_classification :
    (∀ s : String, isAbsoluteUriL s.data = true → parseIdent s = some (.url s)) ∧
    (∀ (s : String) (a b : List Char), isAbsoluteUriL s.data = false →
      splitFirst ':' s.data = some (a, b) → validToken a = true →
      validToken b = true → parseIdent s = some (.prefixed ⟨a⟩ ⟨b⟩)) ∧
    (∀ s : String, ':' ∉ s.data → validToken s.data = true →
      parseIdent s = some (.unprefixed s)) ∧
    parseIdent "http://purl.obolibrary.org/obo/GO_0070412" =
      some (.url "http://purl.obolibrary.org/obo/GO_0070412") ∧
    parseIdent "GO:0070412" = some (.prefixed "GO" "0070412") ∧
    parseIdent "created_by" = some (.unprefixed "created_by") := by
  refine ⟨fun s h => ?_, fun s a b h1 h2 h3 h4 => ?_, fun s h1 h2 => ?_,
    by decide, by decide, by decide⟩
  · simp [parseIdent, parseIdentL, h]
  · simp [parseIdent, parseIdentL, h1, h2, h3, h4]
  · simp [parseIdent, parseIdentL, not_uri_of_no_colon h1,
      splitFirst_eq_none_of_not_mem ':' _ h1, h2]

/-- **C4 witness.** The three classification branches applied at the concrete
inputs of the spec's discrimination example. -/
theorem C4_parse_classification_witness :
    (isAbsoluteUriL ("http://a/b" : String).data = true ∧
      parseIdent "http://a/b" = some (.url "http://a/b")) ∧
    (isAbsoluteUriL ("GO:0070412" : String).data = false ∧
      splitFirst ':' ("GO:0070412" : String).data =
        some (['G', 'O'], ['0', '0', '7', '0', '4', '1', '2']) ∧
      parseIdent "GO:0070412" = some (.prefixed "GO" "0070412")) ∧
    (':' ∉ ("created_by" : String).data ∧
      parseIdent "created_by" = some (.unprefixed "created_by")) :=
  ⟨⟨by decide, C4_parse_classification.1 "http://a/b" (by decide)⟩,
   ⟨by decide, by decide,
    C4_parse_classification.2.1 "GO:0070412" ['G', 'O']
      ['0', '0', '7', '0', '4', '1', '2'] (by decide) (by decide)
      (by decide) (by decide)⟩,
   ⟨by decide, C4_parse_classification.2.2.1 "created_by" (by decide) (by decide)⟩⟩

/-! ## Concrete canonical renderings (C7) -/

/-- **C7.** The typed property value `creation_date
"2019-04-08T23:21:05Z" xsd:date` and the identified property value
`derived_from MS:1000031` render exactly to the canonical clause strings of
the spec's examples. -/
theorem C7_concrete_render :
    (PropertyValue.typed (.unprefixed "creation_date") "2019-04-08T23:21:05Z"
        (.prefixed "xsd" "date")).render =
      "creation_date \"2019-04-08T23:21:05Z\" xsd:date" ∧
    (PropertyValue.identified (.unprefixed "derived_from")
        (.prefixed "MS" "1000031")).render = "derived_from MS:1000031" := by
  constructor <;> decide

/-! ## Dynamically-typed binding surface -/

/-- Modelled from the spec: the dynamically-typed values the host-language
binding can hand to constructors, setters and comparison operators — an
identifier, a property value, or an unrelated primitive (string, integer,
list) as exercised by the test-suite. -/
inductive PyVal where
  | ofIdent (i : Identifier)
  | ofPV (p : PropertyValue)
  | ofStr (s : String)
  | ofInt (n : Int)
  | ofList
deriving DecidableEq, Repr

/-- Modelled from the spec: §7 error kinds — `TypeError` (carrying the name of
the offending parameter), `ValueError`, `SyntaxError`. -/
inductive PyErr where
  | typeError (arg : String)
  | valueError
  | syntaxError
deriving DecidableEq, Repr

/-- Whether a dynamic value is an `Identifier` instance. -/
def PyVal.isIdent : PyVal → Bool
  | .ofIdent _ => true
  | _ => false

/-- Whether a dynamic value is a string. -/
def PyVal.isStr : PyVal → Bool
  | .ofStr _ => true
  | _ => false

/-- Modelled from the spec: §4.1/§3 `UnprefixedIdent(value)` constructor —
`TypeError` when the argument is not a string, `ValueError` when the string is
not a legal bare token. -/
def UnprefixedIdent (value : PyVal) : Except PyErr Identifier :=
  match value with
  | .ofStr s =>
      if validToken s.data then .ok (.unprefixed s) else .error .valueError
  | _ => .error (.typeError "value")

/-- Modelled from the spec: §4.1/§3 `PrefixedIdent(prefix, local)` constructor
— `TypeError` when a part is not a string, `ValueError` when the parts violate
the §3 invariants. -/
def PrefixedIdent (pfx loc : PyVal) : Except PyErr Identifier :=
  match pfx with
  | .ofStr p =>
      match loc with
      | .ofStr l =>
          if (Identifier.prefixed p l).valid then .ok (.prefixed p l)
          else .error .valueError
      | _ => .error (.typeError "local")
  | _ => .error (.typeError "prefix")

/-- Modelled from the spec: §3/§8 `Url(value)` constructor — `TypeError` when
the argument is not a string, `ValueError` when the string does not parse as a
syntactically valid absolute URI; never a silent fallback to another
variant. -/
def Url (value : PyVal) : Except PyErr Identifier :=
  match value with
  | .ofStr s =>
      if isAbsoluteUriL s.data then .ok (.url s) else .error .valueError
  | _ => .error (.typeError "value")

/-- Modelled from the spec: §4.2 `TypedPropertyValue(relation, value,
datatype)` construction — `relation` and `datatype` must each be an
`Identifier`, `value` must be a string; parameters are checked left to right
(relation, then value, then datatype) and the first violation is the one
reported in the `TypeError`. -/
def TypedPropertyValue (relation value datatype : PyVal) :
    Except PyErr PropertyValue :=
  match relation with
  | .ofIdent r =>
      match value with
      | .ofStr v =>
          match datatype with
          | .ofIdent d => .ok (.typed r v d)
          | _ => .error (.typeError "datatype")
      | _ => .error (.typeError "value")
  | _ => .error (.typeError "relation")

/-- Modelled from the spec: §4.2 `IdentifiedPropertyValue(relation, value)`
construction — both parameters must be `Identifier` instances, checked left to
right with the first violation reported. -/
def IdentifiedPropertyValue (relation value : PyVal) :
    Except PyErr PropertyValue :=
  match relation with
  | .ofIdent r =>
      match value with
      | .ofIdent v => .ok (.identified r v)
      | _ => .error (.typeError "value")
  | _ => .error (.typeError "relation")

/-- The shared `relation` field of either property-value variant. -/
def PropertyValue.relation : PropertyValue → Identifier
  | .typed r _ _ => r
  | .identified r _ => r

/-- Modelled from the spec: §4.3 mutation guard on the `relation` field — only
an `Identifier` may be committed, any other runtime type is rejected with
`TypeError` (no implicit coercion of raw strings). -/
def PropertyValue.setRelation (p : PropertyValue) (x : PyVal) :
    Except PyErr PropertyValue :=
  match x with
  | .ofIdent i =>
      match p with
      | .typed _ v d => .ok (.typed i v d)
      | .identified _ v => .ok (.identified i v)
  | _ => .error (.typeError "relation")

/-- Modelled from the spec: §4.3 mutation guard on the `value` field — a
string for the typed variant, an `Identifier` for the identified variant. -/
def PropertyValue.setValue (p : PropertyValue) (x : PyVal) :
    Except PyErr PropertyValue :=
  match p with
  | .typed r _ d =>
      match x with
      | .ofStr s => .ok (.typed r s d)
      | _ => .error (.typeError "value")
  | .identified r _ =>
      match x with
      | .ofIdent i => .ok (.identified r i)
      | _ => .error (.typeError "value")

/-- Modelled from the spec: §4.3 mutation guard on the `datatype` field of the
typed variant — only an `Identifier` may be committed.  (The identified
variant carries no datatype field; the guard rejects there as well.) -/
def PropertyValue.setDatatype (p : PropertyValue) (x : PyVal) :
    Except PyErr PropertyValue :=
  match p with
  | .typed r v _ =>
      match x with
      | .ofIdent i => .ok (.typed r v i)
      | _ => .error (.typeError "datatype")
  | .identified _ _ => .error (.typeError "datatype")

/-- Modelled from the spec: §4.3 — the guard rejects *before commit*, so a
failed mutation leaves the object unchanged: applying a setter yields the
updated object on success, or the untouched prior object together with the
raised error on failure. -/
def applySetter (p : PropertyValue)
    (setter : PropertyValue → PyVal → Except PyErr PropertyValue)
    (x : PyVal) : PropertyValue × Option PyErr :=
  match setter p x with
  | .ok q => (q, none)
  | .error e => (p, some e)

/-! ## Comparison and equality operators -/

/-- Whether two identifiers carry the same variant tag. -/
def Identifier.sameVariant : Identifier → Identifier → Bool
  | .unprefixed _, .unprefixed _ => true
  | .prefixed _ _, .prefixed _ _ => true
  | .url _, .url _ => true
  | _, _ => false

/-- Lexicographic three-way comparison of character lists. -/
def lexCompare : List Char → List Char → Ordering
  | [], [] => .eq
  | [], _ :: _ => .lt
  | _ :: _, [] => .gt
  | a :: as, b :: bs =>
      if a < b then .lt else if b < a then .gt else lexCompare as bs

/-- Modelled from the spec: §4.1 `compare(other)` — defined only when both
operands are identifiers of the same variant, as lexicographic comparison of
the canonical rendered strings; otherwise `TypeError`. -/
def Identifier.compareTo (a : Identifier) (x : PyVal) : Except PyErr Ordering :=
  match x with
  | .ofIdent b =>
      if a.sameVariant b then .ok (lexCompare a.renderL b.renderL)
      else .error (.typeError "other")
  | _ => .error (.typeError "other")

/-- Modelled from the spec: §4.1 — `<` in terms of `compare`. -/
def Identifier.ltOp (a : Identifier) (x : PyVal) : Except PyErr Bool :=
  (a.compareTo x).map (fun o => decide (o = .lt))

/-- Modelled from the spec: §4.1 — `<=` in terms of `compare`. -/
def Identifier.leOp (a : Identifier) (x : PyVal) : Except PyErr Bool :=
  (a.compareTo x).map (fun o => decide (¬ o = .gt))

/-- Modelled from the spec: §4.1 — `>` in terms of `compare`. -/
def Identifier.gtOp (a : Identifier) (x : PyVal) : Except PyErr Bool :=
  (a.compareTo x).map (fun o => decide (o = .gt))

/-- Modelled from the spec: §4.1 — `>=` in terms of `compare`. -/
def Identifier.geOp (a : Identifier) (x : PyVal) : Except PyErr Bool :=
  (a.compareTo x).map (fun o => decide (¬ o = .lt))

/-- Modelled from the spec: §4.1 `==` — structural equality, defined across
all variants and against unrelated types (total, never an error). -/
def Identifier.eqOp (a : Identifier) (x : PyVal) : Bool :=
  match x with
  | .ofIdent b => a == b
  | _ => false

/-- Modelled from the spec: §4.1 `!=` — the negation of `==`, equally total. -/
def Identifier.neOp (a : Identifier) (x : PyVal) : Bool := !(a.eqOp x)

/-! ## Lexicographic comparison agrees with the standard list order -/

theorem lexCompare_eq_lt :
    ∀ x y : List Char, lexCompare x y = .lt ↔ List.lt x y := by
  intro x
  induction x with
  | nil =>
      intro y
      cases y with
      | nil => exact ⟨(fun h => nomatch h), (fun h => nomatch h)⟩
      | cons b bs => exact ⟨(fun _ => List.lt.nil b bs), (fun _ => rfl)⟩
  | cons a as ih =>
      intro y
      cases y with
      | nil => exact ⟨(fun h => nomatch h), (fun h => nomatch h)⟩
      | cons b bs =>
          constructor
          · intro h
            by_cases hab : a < b
            · exact List.lt.head as bs hab
            · by_cases hba : b < a
              · simp only [lexCompare, if_neg hab, if_pos hba] at h
                exact nomatch h
              · simp only [lexCompare, if_neg hab, if_neg hba] at h
                exact List.lt.tail hab hba ((ih bs).mp h)
          · intro h
            cases h with
            | head _ _ h' => simp only [lexCompare, if_pos h']
            | tail h1 h2 h3 =>
                simp only [lexCompare, if_neg h1, if_neg h2]
                exact (ih bs).mpr h3

theorem lexCompare_eq_gt :
    ∀ x y : List Char, lexCompare x y = .gt ↔ List.lt y x := by
  intro x
  induction x with
  | nil =>
      intro y
      cases y with
      | nil => exact ⟨(fun h => nomatch h), (fun h => nomatch h)⟩
      | cons b bs => exact ⟨(fun h => nomatch h), (fun h => nomatch h)⟩
  | cons a as ih =>
      intro y
      cases y with
      | nil => exact ⟨(fun _ => List.lt.nil a as), (fun _ => rfl)⟩
      | cons b bs =>
          constructor
          · intro h
            by_cases hab : a < b
            · simp only [lexCompare, if_pos hab] at h
              exact nomatch h
            · by_cases hba : b < a
              · exact List.lt.head bs as hba
              · simp only [lexCompare, if_neg hab, if_neg hba] at h
                exact List.lt.tail hba hab ((ih bs).mp h)
          · intro h
            cases h with
            | head _ _ h' =>
                have hab : ¬ a < b := fun hc => absurd h' (Char.lt_asymm hc)
                simp only [lexCompare, if_neg hab, if_pos h']
            | tail h1 h2 h3 =>
                simp only [lexCompare, if_neg h2, if_neg h1]
                exact (ih bs).mpr h3

/-- String order on renderings agrees with core lexicographic list order. -/
theorem render_lt_iff (a b : Identifier) :
    a.render < b.render ↔ List.lt a.renderL b.renderL := by
  rw [String.lt_iff_toList_lt]
  exact (List.lt_iff_lex_lt a.renderL b.renderL).symm

/-- String ≤ on renderings is the negation of the reverse strict order. -/
theorem render_le_iff (a b : Identifier) :
    a.render ≤ b.render ↔ ¬ List.lt b.renderL a.renderL := by
  rw [← not_lt]
  exact not_congr (render_lt_iff b a)

/-! ## Ordering operators (C5) -/

/-- **C5.** For identifiers of the same variant the ordering operators `<`,
`<=`, `>`, `>=` agree with lexicographic comparison of the canonical rendered
strings; between different variants, or against a non-identifier value, every
ordering operator raises `TypeError` instead of returning a result. -/
theorem C5_ordering_lexicographic :
    (∀ a b : Identifier, a.sameVariant b = true →
      (a.ltOp (.ofIdent b) = .ok true ↔ a.render < b.render) ∧
      (a.leOp (.ofIdent b) = .ok true ↔ a.render ≤ b.render) ∧
      (a.gtOp (.ofIdent b) = .ok true ↔ b.render < a.render) ∧
      (a.geOp (.ofIdent b) = .ok true ↔ b.render ≤ a.render)) ∧
    (∀ a b : Identifier, a.sameVariant b = false →
      a.ltOp (.ofIdent b) = .error (.typeError "other") ∧
      a.leOp (.ofIdent b) = .error (.typeError "other") ∧
      a.gtOp (.ofIdent b) = .error (.typeError "other") ∧
      a.geOp (.ofIdent b) = .error (.typeError "other")) ∧
    (∀ (a : Identifier) (x : PyVal), x.isIdent = false →
      a.ltOp x = .error (.typeError "other") ∧
      a.leOp x = .error (.typeError "other") ∧
      a.gtOp x = .error (.typeError "other") ∧
      a.geOp x = .error (.typeError "other")) := by
  refine ⟨fun a b hv => ⟨?_, ?_, ?_, ?_⟩, fun a b hv => ?_, fun a x hx => ?_⟩
  · simp only [Identifier.ltOp, Identifier.compareTo, hv, if_true, Except.map,
      Except.ok.injEq, decide_eq_true_eq]
    exact (lexCompare_eq_lt _ _).trans (render_lt_iff a b).symm
  · simp only [Identifier.leOp, Identifier.compareTo, hv, if_true, Except.map,
      Except.ok.injEq, decide_eq_true_eq]
    exact (not_congr (lexCompare_eq_gt _ _)).trans (render_le_iff a b).symm
  · simp only [Identifier.gtOp, Identifier.compareTo, hv, if_true, Except.map,
      Except.ok.injEq, decide_eq_true_eq]
    exact (lexCompare_eq_gt _ _).trans (render_lt_iff b a).symm
  · simp only [Identifier.geOp, Identifier.compareTo, hv, if_true, Except.map,
      Except.ok.injEq, decide_eq_true_eq]
    exact (not_congr (lexCompare_eq_lt _ _)).trans (render_le_iff b a).symm
  · simp [Identifier.ltOp, Identifier.leOp, Identifier.gtOp, Identifier.geOp,
      Identifier.compareTo, hv, Except.map]
  · cases x with
    | ofIdent i => simp [PyVal.isIdent] at hx
    | ofPV p => simp [Identifier.ltOp, Identifier.leOp, Identifier.gtOp,
        Identifier.geOp, Identifier.compareTo, Except.map]
    | ofStr s => simp [Identifier.ltOp, Identifier.leOp, Identifier.gtOp,
        Identifier.geOp, Identifier.compareTo, Except.map]
    | ofInt n => simp [Identifier.ltOp, Identifier.leOp, Identifier.gtOp,
        Identifier.geOp, Identifier.compareTo, Except.map]
    | ofList => simp [Identifier.ltOp, Identifier.leOp, Identifier.gtOp,
        Identifier.geOp, Identifier.compareTo, Except.map]

/-- **C5 witness.** The same-variant comparison of the test-suite
(`derived_from` against `has_elements_from`), a cross-variant comparison, and
a comparison against an integer. -/
theorem C5_ordering_lexicographic_witness :
    ((Identifier.unprefixed "derived_from").sameVariant
        (.unprefixed "has_elements_from") = true ∧
      ((Identifier.unprefixed "derived_from").ltOp
          (.ofIdent (.unprefixed "has_elements_from")) = .ok true ↔
        (Identifier.unprefixed "derived_from").render <
          (Identifier.unprefixed "has_elements_from").render)) ∧
    ((Identifier.unprefixed "derived_from").sameVariant
        (.url "http://a/b") = false ∧
      (Identifier.unprefixed "derived_from").ltOp
        (.ofIdent (.url "http://a/b")) = .error (.typeError "other")) ∧
    (PyVal.isIdent (.ofInt 123) = false ∧
      (Identifier.unprefixed "derived_from").ltOp (.ofInt 123) =
        .error (.typeError "other")) :=
  ⟨⟨by decide, (C5_ordering_lexicographic.1 _ _ (by decide)).1⟩,
   ⟨by decide, (C5_ordering_lexicographic.2.1 _ _ (by decide)).1⟩,
   ⟨by decide, (C5_ordering_lexicographic.2.2 _ _ (by decide)).1⟩⟩

/-! ## Equality operators (C8) -/

/-- **C8.** `==`/`!=` on identifiers are total: identifiers of different
variants are never equal, comparison against an unrelated type returns
`false`/`true` (never an error), and identifiers of the same variant are
equal exactly when their attributes are equal. -/
theorem C8_equality_total :
    (∀ a b : Identifier, a.sameVariant b = false →
      a.eqOp (.ofIdent b) = false ∧ a.neOp (.ofIdent b) = true) ∧
    (∀ (a : Identifier) (x : PyVal), x.isIdent = false →
      a.eqOp x = false ∧ a.neOp x = true) ∧
    (∀ a b : Identifier, a.eqOp (.ofIdent b) = true ↔ a = b) ∧
    (∀ u v : String,
      (Identifier.unprefixed u).eqOp (.ofIdent (.unprefixed v)) = true ↔ u = v) ∧
    (∀ p1 l1 p2 l2 : String,
      (Identifier.prefixed p1 l1).eqOp (.ofIdent (.prefixed p2 l2)) = true ↔
        p1 = p2 ∧ l1 = l2) ∧
    (∀ u v : String,
      (Identifier.url u).eqOp (.ofIdent (.url v)) = true ↔ u = v) := by
  refine ⟨fun a b hv => ?_, fun a x hx => ?_, fun a b => ?_,
    fun u v => ?_, fun p1 l1 p2 l2 => ?_, fun u v => ?_⟩
  · have hne : ¬(a = b) := by
      intro h; subst h
      cases a <;> simp [Identifier.sameVariant] at hv
    simp [Identifier.eqOp, Identifier.neOp, hne]
  · cases x with
    | ofIdent i => simp [PyVal.isIdent] at hx
    | ofPV p => simp [Identifier.eqOp, Identifier.neOp]
    | ofStr s => simp [Identifier.eqOp, Identifier.neOp]
    | ofInt n => simp [Identifier.eqOp, Identifier.neOp]
    | ofList => simp [Identifier.eqOp, Identifier.neOp]
  · simp [Identifier.eqOp]
  · simp [Identifier.eqOp]
  · simp [Identifier.eqOp]
  · simp [Identifier.eqOp]

/-- **C8 witness.** The test-suite's concrete cases: a URL compared to the
integer `123` is just unequal (no error), and cross-variant equality is
`false`. -/
theorem C8_equality_total_witness :
    ((Identifier.url "http://purl.obolibrary.org/obo/GO_0070412").sameVariant
        (.unprefixed "created_by") = false ∧
      (Identifier.url "http://purl.obolibrary.org/obo/GO_0070412").eqOp
        (.ofIdent (.unprefixed "created_by")) = false) ∧
    (PyVal.isIdent (.ofInt 123) = false ∧
      (Identifier.url "http://purl.obolibrary.org/obo/GO_0070412").eqOp
        (.ofInt 123) = false ∧
      (Identifier.url "http://purl.obolibrary.org/obo/GO_0070412").neOp
        (.ofInt 123) = true) :=
  ⟨⟨by decide, (C8_equality_total.1 _ _ (by decide)).1⟩,
   ⟨by decide, (C8_equality_total.2.1 _ _ (by decide)).1,
    (C8_equality_total.2.1 _ _ (by decide)).2⟩⟩

/-! ## Url constructor validation (C9) -/

/-- **C9.** The `Url` constructor rejects any string that is not a
syntactically valid absolute URI with `ValueError` — no silent acceptance and
no fallback to another identifier variant; in particular
`Url "not a URL at all"` raises `ValueError`. -/
theorem C9_url_value_error :
    (∀ s : String, isAbsoluteUriL s.data = false →
      Url (.ofStr s) = .error .valueError) ∧
    Url (.ofStr "not a URL at all") = .error .valueError := by
  refine ⟨fun s h => ?_, by rfl⟩
  simp [Url, h]

/-- **C9 witness.** The rejection at the test-suite's concrete input. -/
theorem C9_url_value_error_witness :
    isAbsoluteUriL ("not a URL at all" : String).data = false ∧
    Url (.ofStr "not a URL at all") = .error .valueError :=
  ⟨by decide, C9_url_value_error.1 "not a URL at all" (by decide)⟩

/-! ## Constructor type checking (C6) -/

/-- **C6.** Property-value construction raises `TypeError` whenever `relation`
or `datatype` is not an `Identifier` or `value` has the wrong type for the
variant, with parameters checked left to right — relation, then value, then
datatype — so the first violated position is the one reported; well-typed
arguments construct the value. -/
theorem C6_constructor_type_errors :
    (∀ rel value dt : PyVal, rel.isIdent = false →
      TypedPropertyValue rel value dt = .error (.typeError "relation")) ∧
    (∀ (r : Identifier) (value dt : PyVal), value.isStr = false →
      TypedPropertyValue (.ofIdent r) value dt = .error (.typeError "value")) ∧
    (∀ (r : Identifier) (v : String) (dt : PyVal), dt.isIdent = false →
      TypedPropertyValue (.ofIdent r) (.ofStr v) dt =
        .error (.typeError "datatype")) ∧
    (∀ (r : Identifier) (v : String) (d : Identifier),
      TypedPropertyValue (.ofIdent r) (.ofStr v) (.ofIdent d) =
        .ok (.typed r v d)) ∧
    (∀ rel value : PyVal, rel.isIdent = false →
      IdentifiedPropertyValue rel value = .error (.typeError "relation")) ∧
    (∀ (r : Identifier) (value : PyVal), value.isIdent = false →
      IdentifiedPropertyValue (.ofIdent r) value =
        .error (.typeError "value")) ∧
    (∀ (r v : Identifier),
      IdentifiedPropertyValue (.ofIdent r) (.ofIdent v) =
        .ok (.identified r v)) := by
  refine ⟨fun rel value dt h => ?_, fun r value dt h => ?_,
    fun r v dt h => ?_, fun r v d => rfl, fun rel value h => ?_,
    fun r value h => ?_, fun r v => rfl⟩
  · cases rel with
    | ofIdent i => simp [PyVal.isIdent] at h
    | ofPV p => rfl
    | ofStr s => rfl
    | ofInt n => rfl
    | ofList => rfl
  · cases value with
    | ofStr s => simp [PyVal.isStr] at h
    | ofIdent i => rfl
    | ofPV p => rfl
    | ofInt n => rfl
    | ofList => rfl
  · cases dt with
    | ofIdent i => simp [PyVal.isIdent] at h
    | ofPV p => rfl
    | ofStr s => rfl
    | ofInt n => rfl
    | ofList => rfl
  · cases rel with
    | ofIdent i => simp [PyVal.isIdent] at h
    | ofPV p => rfl
    | ofStr s => rfl
    | ofInt n => rfl
    | ofList => rfl
  · cases value with
    | ofIdent i => simp [PyVal.isIdent] at h
    | ofPV p => rfl
    | ofStr s => rfl
    | ofInt n => rfl
    | ofList => rfl

/-- **C6 witness.** The test-suite's concrete violations: an integer in each
parameter position of both constructors, reported left to right. -/
theorem C6_constructor_type_errors_witness :
    (PyVal.isIdent (.ofInt 1) = false ∧
      TypedPropertyValue (.ofInt 1) (.ofStr "2019-04-08T23:21:05Z")
          (.ofIdent (.prefixed "xsd" "date")) = .error (.typeError "relation")) ∧
    (PyVal.isStr (.ofInt 1) = false ∧
      TypedPropertyValue (.ofIdent (.unprefixed "creation_date")) (.ofInt 1)
          (.ofIdent (.prefixed "xsd" "date")) = .error (.typeError "value")) ∧
    (PyVal.isIdent (.ofInt 1) = false ∧
      TypedPropertyValue (.ofIdent (.unprefixed "creation_date"))
          (.ofStr "2019-04-08T23:21:05Z") (.ofInt 1) =
        .error (.typeError "datatype")) ∧
    (PyVal.isIdent (.ofInt 1) = false ∧
      IdentifiedPropertyValue (.ofInt 1)
          (.ofIdent (.prefixed "MS" "1000031")) =
        .error (.typeError "relation")) ∧
    (PyVal.isIdent (.ofInt 1) = false ∧
      IdentifiedPropertyValue (.ofIdent (.unprefixed "derived_from"))
          (.ofInt 1) = .error (.typeError "value")) :=
  ⟨⟨by decide, C6_constructor_type_errors.1 _ _ _ (by decide)⟩,
   ⟨by decide, C6_constructor_type_errors.2.1 _ _ _ (by decide)⟩,
   ⟨by decide, C6_constructor_type_errors.2.2.1 _ _ _ (by decide)⟩,
   ⟨by decide, C6_constructor_type_errors.2.2.2.2.1 _ _ (by decide)⟩,
   ⟨by decide, C6_constructor_type_errors.2.2.2.2.2.1 _ _ (by decide)⟩⟩

/-! ## Mutation guard (C3) -/

/-- **C3.** Every setter of a typed field rejects a value of the wrong runtime
type with `TypeError` and leaves the field at its prior value, observable by a
subsequent read; in particular a raw string is never implicitly coerced to an
identifier for the `relation` field. -/
theorem C3_mutation_guard :
    (∀ (p : PropertyValue) (x : PyVal), x.isIdent = false →
      applySetter p PropertyValue.setRelation x =
        (p, some (.typeError "relation")) ∧
      (applySetter p PropertyValue.setRelation x).1.relation = p.relation) ∧
    (∀ (r : Identifier) (v : String) (d : Identifier) (x : PyVal),
      x.isStr = false →
      applySetter (.typed r v d) PropertyValue.setValue x =
        (.typed r v d, some (.typeError "value"))) ∧
    (∀ (r v : Identifier) (x : PyVal), x.isIdent = false →
      applySetter (.identified r v) PropertyValue.setValue x =
        (.identified r v, some (.typeError "value"))) ∧
    (∀ (r : Identifier) (v : String) (d : Identifier) (x : PyVal),
      x.isIdent = false →
      applySetter (.typed r v d) PropertyValue.setDatatype x =
        (.typed r v d, some (.typeError "datatype"))) := by
  refine ⟨fun p x hx => ?_, fun r v d x hx => ?_, fun r v x hx => ?_,
    fun r v d x hx => ?_⟩
  · have herr : PropertyValue.setRelation p x = .error (.typeError "relation") := by
      cases x with
      | ofIdent i => simp [PyVal.isIdent] at hx
      | ofPV q => rfl
      | ofStr s => rfl
      | ofInt n => rfl
      | ofList => rfl
    refine ⟨?_, ?_⟩ <;> simp [applySetter, herr]
  · cases x with
    | ofStr s => simp [PyVal.isStr] at hx
    | ofIdent i => rfl
    | ofPV q => rfl
    | ofInt n => rfl
    | ofList => rfl
  · cases x with
    | ofIdent i => simp [PyVal.isIdent] at hx
    | ofPV q => rfl
    | ofStr s => rfl
    | ofInt n => rfl
    | ofList => rfl
  · cases x with
    | ofIdent i => simp [PyVal.isIdent] at hx
    | ofPV q => rfl
    | ofStr s => rfl
    | ofInt n => rfl
    | ofList => rfl

/-- **C3 witness.** The test scenario: assigning the raw string
`"IAO:0000219"` to the `relation` field of the typed property value raises
`TypeError` and a subsequent read still sees the prior relation. -/
theorem C3_mutation_guard_witness :
    PyVal.isIdent (.ofStr "IAO:0000219") = false ∧
    applySetter
        (.typed (.unprefixed "creation_date") "2019-04-08T23:21:05Z"
          (.prefixed "xsd" "date"))
        PropertyValue.setRelation (.ofStr "IAO:0000219") =
      (.typed (.unprefixed "creation_date") "2019-04-08T23:21:05Z"
          (.prefixed "xsd" "date"),
        some (.typeError "relation")) ∧
    (applySetter
        (.typed (.unprefixed "creation_date") "2019-04-08T23:21:05Z"
          (.prefixed "xsd" "date"))
        PropertyValue.setRelation (.ofStr "IAO:0000219")).1.relation =
      Identifier.unprefixed "creation_date" :=
  ⟨by decide,
   (C3_mutation_guard.1 _ _ (by decide)).1,
   (C3_mutation_guard.1 _ _ (by decide)).2⟩

/-! ## Constructor-style repr (C10) -/

/-- The host language's quoted representation of a plain string literal. -/
def pyStrRepr (s : String) : String := "'" ++ s ++ "'"

/-- Modelled from the spec / test-suite: constructor-style `repr` of an
identifier, e.g. `UnprefixedIdent('creation_date')`,
`PrefixedIdent('xsd', 'date')`. -/
def Identifier.pyRepr : Identifier → String
  | .unprefixed v => "UnprefixedIdent(" ++ pyStrRepr v ++ ")"
  | .prefixed p l => "PrefixedIdent(" ++ pyStrRepr p ++ ", " ++ pyStrRepr l ++ ")"
  | .url v => "Url(" ++ pyStrRepr v ++ ")"

/-- Modelled from the spec / test-suite: constructor-style `repr` of a
property value, built from the reprs of its components. -/
def PropertyValue.pyRepr : PropertyValue → String
  | .typed r v d =>
      "TypedPropertyValue(" ++ r.pyRepr ++ ", " ++ pyStrRepr v ++ ", " ++
        d.pyRepr ++ ")"
  | .identified r v =>
      "IdentifiedPropertyValue(" ++ r.pyRepr ++ ", " ++ v.pyRepr ++ ")"

/-- **C10.** `repr` of a `TypedPropertyValue` is the constructor-style string
over the reprs of relation, value and datatype; `repr` of an
`IdentifiedPropertyValue` is the constructor-style string over the reprs of
relation and value; with identifier reprs themselves constructor-style, as in
the test-suite's two concrete expectations. -/
theorem C10_repr_constructor_style :
    (∀ (r : Identifier) (v : String) (d : Identifier),
      (PropertyValue.typed r v d).pyRepr =
        "TypedPropertyValue(" ++ r.pyRepr ++ ", " ++ pyStrRepr v ++ ", " ++
          d.pyRepr ++ ")") ∧
    (∀ r v : Identifier,
      (PropertyValue.identified r v).pyRepr =
        "IdentifiedPropertyValue(" ++ r.pyRepr ++ ", " ++ v.pyRepr ++ ")") ∧
    (PropertyValue.typed (.unprefixed "creation_date") "2019-04-08T23:21:05Z"
        (.prefixed "xsd" "date")).pyRepr =
      "TypedPropertyValue(UnprefixedIdent('creation_date'), '2019-04-08T23:21:05Z', PrefixedIdent('xsd', 'date'))" ∧
    (PropertyValue.identified (.unprefixed "derived_from")
        (.prefixed "MS" "1000031")).pyRepr =
      "IdentifiedPropertyValue(UnprefixedIdent('derived_from'), PrefixedIdent('MS', '1000031'))" :=
  ⟨fun _ _ _ => rfl, fun _ _ => rfl, by decide, by decide⟩

end Fastobo
